import Mathlib

/-!
Shallow embedding of the StravaRTB synchronization engine.

The definitions below are translated from the Python sources:
  streamlit_app.py : fetch_activities, the admin Edit form, the Sync tab
    handler (mode choice, merge, feed dedup, batched write-back) and the
    registration callback's backfill feed append.
  daily_sync.py : the scheduled-job sync loop (an older variant with no
    activity-type filter).

HTTP effects are made explicit: the world is a record of oracle functions
(token refresh, activities-list page, activity detail), each returning an
Option where the source checks an HTTP status.  Epoch timestamps are Nat
(the strptime parse of the ISO start_date string is abstracted to a field).
The number of detail calls a run performs is threaded through the state so
that call-effect properties can be stated.  Floating point distance
rounding for display is abstracted: the raw meter value is carried.
-/

/-- The tracked segment map of streamlit_app.py (line 14). -/
def SEGMENTS : List (Nat × String) :=
  [(22655740, "Five Finger Hills"),
   (40409507, "Lakeshore Coxwell-Leslie"),
   (8223506,  "Pool to boardwalk"),
   (3219147,  "Scarborough Road"),
   (40410183, "Rainsford Rd"),
   (1705023,  "Stairway to Heavan"),
   (24820256, "Waterworks")]

/-- SEGMENT_IDS = list(SEGMENTS.keys()). -/
def SEGMENT_IDS : List Nat := SEGMENTS.map (fun p => p.1)

/-- The tracked activity-type set of fetch_activities (line 111). -/
def trackedTypes : List String := ["Run", "Walk", "Hike"]

/-- A summary activity as returned by the list endpoint.  startEpoch is the
parsed Unix epoch of the UTC start_date string. -/
structure Activity where
  id : Nat
  type : String
  startEpoch : Nat
  start_date_local : String
deriving DecidableEq

/-- An activity detail payload: metadata plus the segment ids of its
segment_efforts list. -/
structure Detail where
  name : String
  description : String
  distance : Nat
  kudos_count : Nat
  segment_efforts : List Nat
deriving DecidableEq

/-- One ActivityFeed row: Runner, Timestamp, Title, Description, Distance,
Kudos (streamlit_app.py lines 137-144). -/
structure FeedItem where
  runner : String
  timestamp : String
  title : String
  description : String
  distance : Nat
  kudos : Nat
deriving DecidableEq

/-- The mutable state of one fetch_activities run: the per-segment count
dictionary, the running watermark candidate, the feed items built so far,
and the number of detail calls issued so far. -/
structure FetchState where
  counts : List (Nat × Nat)
  maxEpoch : Nat
  feed : List FeedItem
  detailCalls : Nat
deriving DecidableEq

/-- Dictionary membership test: sid in counts. -/
def hasKey (c : List (Nat × Nat)) (sid : Nat) : Bool :=
  c.any (fun p => p.1 == sid)

/-- Dictionary increment: counts[sid] += 1. -/
def bump (c : List (Nat × Nat)) (sid : Nat) : List (Nat × Nat) :=
  c.map (fun p => if p.1 = sid then (p.1, p.2 + 1) else p)

/-- The effort loop of fetch_activities (lines 129-133): for each effort
whose segment id is a key of the count dictionary, increment that count and
the matched-in-this-run tally. -/
def countEfforts (st : List (Nat × Nat) × Nat) (efforts : List Nat) :
    List (Nat × Nat) × Nat :=
  efforts.foldl
    (fun acc sid => if hasKey acc.1 sid then (bump acc.1 sid, acc.2 + 1) else acc)
    st

/-- The feed row built for a matched activity (lines 137-144). -/
def mkFeedItem (runner : String) (act : Activity) (d : Detail) : FeedItem :=
  { runner := runner
    timestamp := act.start_date_local
    title := d.name
    description := d.description
    distance := d.distance
    kudos := d.kudos_count }

/-- The body of the activities loop of fetch_activities (lines 109-144):
skip a non-tracked type immediately; otherwise advance the watermark
candidate, issue the detail call, and on a 200 response count the tracked
efforts and build a feed row when at least one matched. -/
def processActivity (detailOf : Nat → Option Detail) (runner : String)
    (st : FetchState) (act : Activity) : FetchState :=
  if act.type ∈ trackedTypes then
    let maxE := if act.startEpoch > st.maxEpoch then act.startEpoch else st.maxEpoch
    match detailOf act.id with
    | none => { st with maxEpoch := maxE, detailCalls := st.detailCalls + 1 }
    | some d =>
      let r := countEfforts (st.counts, 0) d.segment_efforts
      let feed' := if r.2 > 0 then st.feed ++ [mkFeedItem runner act d] else st.feed
      { counts := r.1, maxEpoch := maxE, feed := feed',
        detailCalls := st.detailCalls + 1 }
  else st

/-- The zero count dictionary counts = \x7bseg_id: 0 for seg_id in SEGMENT_IDS\x7d. -/
def initCounts : List (Nat × Nat) := SEGMENT_IDS.map (fun sid => (sid, 0))

/-- fetch_activities (streamlit_app.py lines 85-146).  listResp is the
activities-list response: none models a non-200 status, in which case the
zero counts, input watermark and empty feed are returned unchanged. -/
def fetch_activities (detailOf : Nat → Option Detail)
    (listResp : Option (List Activity)) (start_epoch : Nat)
    (runner_name : String) : FetchState :=
  let st0 : FetchState :=
    { counts := initCounts, maxEpoch := start_epoch, feed := [], detailCalls := 0 }
  match listResp with
  | none => st0
  | some acts => acts.foldl (processActivity detailOf runner_name) st0

/-- Sum of the values of a count dictionary. -/
def sumCounts (c : List (Nat × Nat)) : Nat := (c.map (fun p => p.2)).sum

/-- Dictionary lookup with default 0 (a missing key never occurs in the
source, every dictionary being keyed by SEGMENT_IDS). -/
def getCount (c : List (Nat × Nat)) (sid : Nat) : Nat :=
  match c.find? (fun p => p.1 == sid) with
  | some p => p.2
  | none => 0

/-- The per-segment additive update of the INCREMENTAL branch (lines
607-609): for each tracked segment, the stored count plus the batch count. -/
def addCounts (a b : List (Nat × Nat)) : List (Nat × Nat) :=
  SEGMENT_IDS.map (fun sid => (sid, getCount a sid + getCount b sid))

/-- One roster row of the main sheet: athlete_id, name, refresh_token,
last_synced, total_count, then one column per tracked segment. -/
structure Runner where
  athlete_id : Nat
  name : String
  refresh_token : String
  last_synced : Nat
  total_count : Nat
  segCounts : List (Nat × Nat)
deriving DecidableEq

/-- The admin Edit form handler (lines 522-531): every segment column is
overwritten with the submitted value and total_count with the sum of the
submitted values. -/
def adminEdit (r : Runner) (vals : Nat → Nat) : Runner :=
  { r with
    segCounts := SEGMENT_IDS.map (fun sid => (sid, vals sid))
    total_count := (SEGMENT_IDS.map vals).sum }

/-- The external world of one sync cycle: the token refresh oracle (none
models a non-200 refresh), the activities-list oracle keyed on access token
and after-epoch (none models a non-200 list call), and the detail oracle
(none models a non-200 detail call). -/
structure Api where
  tokenOf : String → Option String
  listResp : String → Nat → Option (List Activity)
  detailOf : String → Nat → Option Detail

/-- The hybrid mode choice of the Start Sync handler (lines 581-590):
force gives FULL from the challenge start; a nonzero stored watermark
strictly beyond the challenge start gives INCREMENTAL from the watermark;
anything else gives FULL from the challenge start.  The Bool is true for
FULL; the Nat is the fetch-after epoch. -/
def chooseMode (force : Bool) (startTs lastTs : Nat) : Bool × Nat :=
  if force then (true, startTs)
  else if lastTs ≠ 0 ∧ lastTs > startTs then (false, lastTs)
  else (true, startTs)

/-- The in-memory row update of the Start Sync handler (lines 601-615):
last_synced is overwritten with the fetch result watermark; INCREMENTAL
adds the batch total and per-segment counts onto the stored ones, FULL
overwrites them with the batch values. -/
def applyMerge (r : Runner) (isFull : Bool) (newCounts : List (Nat × Nat))
    (newEpoch : Nat) : Runner :=
  let r1 := { r with last_synced := newEpoch }
  let totalNew := sumCounts newCounts
  if isFull then
    { r1 with total_count := totalNew, segCounts := newCounts }
  else
    { r1 with total_count := r1.total_count + totalNew,
              segCounts := addCounts r1.segCounts newCounts }

/-- The feed dedup key (line 595): (runner name, local timestamp). -/
def keyOf (it : FeedItem) : String × String := (it.runner, it.timestamp)

/-- The feed queueing loop of the Start Sync handler (lines 594-598): an
item whose key is already known is dropped, otherwise it is queued and its
key recorded. -/
def dedupFeed (keys : List (String × String)) :
    List FeedItem → List FeedItem × List (String × String)
  | [] => ([], keys)
  | item :: rest =>
    if keyOf item ∈ keys then dedupFeed keys rest
    else
      let p := dedupFeed (keys ++ [keyOf item]) rest
      (item :: p.1, p.2)

/-- clean_name = name.replace(" *", "") (line 575). -/
def cleanName (s : String) : String := s.replace (" *") ""

/-- One iteration of the Start Sync runner loop (lines 567-619): MANUAL
and SCRAPED rows are skipped; a failed token refresh leaves the row
untouched; otherwise the mode is chosen, activities fetched, new feed
items queued through the dedup set, and the row merged in memory.
Returns the updated row, the feed items queued by this runner, and the
grown dedup key set. -/
def syncRunner (api : Api) (force : Bool) (startTs : Nat)
    (keys : List (String × String)) (r : Runner) :
    Runner × List FeedItem × List (String × String) :=
  if r.refresh_token = "MANUAL" ∨ r.refresh_token = "SCRAPED" then (r, [], keys)
  else
    match api.tokenOf r.refresh_token with
    | none => (r, [], keys)
    | some tok =>
      let m := chooseMode force startTs r.last_synced
      let res := fetch_activities (api.detailOf tok) (api.listResp tok m.2) m.2
        (cleanName r.name)
      let p := dedupFeed keys res.feed
      (applyMerge r m.1 res.counts res.maxEpoch, p.1, p.2)

/-- The row a runner holds after the cycle (the dedup key set never feeds
back into the row computation). -/
def syncRecord (api : Api) (force : Bool) (startTs : Nat) (r : Runner) : Runner :=
  (syncRunner api force startTs [] r).1

/-- The whole Start Sync cycle over the roster (lines 545-634): rows are
processed in order, the dedup key set threads through, and the batched
write-back stores the updated rows and appends the queued feed items.
Returns the stored roster and the appended feed items. -/
def syncCycle (api : Api) (force : Bool) (startTs : Nat)
    (keys : List (String × String)) : List Runner → List Runner × List FeedItem
  | [] => ([], [])
  | r :: rest =>
    let s := syncRunner api force startTs keys r
    let t := syncCycle api force startTs s.2.2 rest
    (s.1 :: t.1, s.2.1 ++ t.2)

/-- The initial dedup key set built from the stored ActivityFeed rows
(lines 555-560). -/
def feedKeys (stored : List FeedItem) : List (String × String) :=
  stored.map keyOf

/-- Number of stored feed rows carrying a given dedup key. -/
def countKey (k : String × String) (l : List FeedItem) : Nat :=
  (l.filter (fun it => keyOf it == k)).length

/-- The registration callback's backfill feed append (lines 440-448): the
freshly fetched feed items are appended to the stored feed as they are,
with no dedup against it. -/
def registrationFeedAppend (detailOf : Nat → Option Detail)
    (listResp : Option (List Activity)) (startTs : Nat) (runner_name : String)
    (stored : List FeedItem) : List FeedItem :=
  stored ++ (fetch_activities detailOf listResp startTs runner_name).feed

/-- One iteration of the activity loop of daily_sync.py (lines 67-83):
no type filter; the bookmark is advanced for every activity; a detail call
is made for every activity (effortsOf yields the segment_efforts ids, an
empty list when the call fails); every effort on a tracked segment counts.
State: (new_segment_count, latest_run_time, detail calls made). -/
def dailySyncActivity (effortsOf : Nat → List Nat) (segIds : List Nat)
    (st : Nat × Nat × Nat) (act : Activity) : Nat × Nat × Nat :=
  let latest := if act.startEpoch > st.2.1 then act.startEpoch else st.2.1
  let hits := (effortsOf act.id).filter (fun sid => sid ∈ segIds)
  (st.1 + hits.length, latest, st.2.2 + 1)

/-- The per-runner body of daily_sync.py's sync (lines 62-90), given a 200
activities-list response. -/
def dailySyncRunner (effortsOf : Nat → List Nat) (segIds : List Nat)
    (lastEpoch : Nat) (acts : List Activity) : Nat × Nat × Nat :=
  acts.foldl (dailySyncActivity effortsOf segIds) (0, lastEpoch, 0)

/-! Helper lemmas about the fetcher state. -/

theorem processActivity_maxEpoch_le (d : Nat → Option Detail) (rn : String)
    (st : FetchState) (act : Activity) :
    st.maxEpoch ≤ (processActivity d rn st act).maxEpoch := by
  unfold processActivity
  by_cases h : act.type ∈ trackedTypes
  · simp only [h, if_true]
    have hm : st.maxEpoch ≤
        (if act.startEpoch > st.maxEpoch then act.startEpoch else st.maxEpoch) := by
      split <;> omega
    cases hd : d act.id <;> simp only [hd] <;> exact hm
  · simp [h]

theorem foldl_maxEpoch_le (d : Nat → Option Detail) (rn : String)
    (acts : List Activity) :
    ∀ st : FetchState, st.maxEpoch ≤ (acts.foldl (processActivity d rn) st).maxEpoch := by
  induction acts with
  | nil => intro st; simp
  | cons a t ih =>
    intro st
    calc st.maxEpoch ≤ (processActivity d rn st a).maxEpoch :=
          processActivity_maxEpoch_le d rn st a
      _ ≤ _ := ih (processActivity d rn st a)

theorem fetch_maxEpoch_le (d : Nat → Option Detail) (l : Option (List Activity))
    (s : Nat) (rn : String) : s ≤ (fetch_activities d l s rn).maxEpoch := by
  cases l with
  | none => exact Nat.le_refl s
  | some acts =>
    exact foldl_maxEpoch_le d rn acts
      { counts := initCounts, maxEpoch := s, feed := [], detailCalls := 0 }

theorem bump_keys (c : List (Nat × Nat)) (sid : Nat) :
    (bump c sid).map (fun p => p.1) = c.map (fun p => p.1) := by
  unfold bump
  rw [List.map_map]
  apply List.map_congr_left
  intro p _
  simp only [Function.comp]
  split <;> rfl

theorem countEfforts_keys (efforts : List Nat) :
    ∀ st : List (Nat × Nat) × Nat,
      ((countEfforts st efforts).1).map (fun p => p.1) = (st.1).map (fun p => p.1) := by
  induction efforts with
  | nil => intro st; rfl
  | cons e t ih =>
    intro st
    show ((countEfforts (if hasKey st.1 e then (bump st.1 e, st.2 + 1) else st) t).1).map
        (fun p => p.1) = (st.1).map (fun p => p.1)
    rw [ih]
    split <;> simp [bump_keys]

theorem processActivity_keys (d : Nat → Option Detail) (rn : String)
    (st : FetchState) (act : Activity) :
    (processActivity d rn st act).counts.map (fun p => p.1)
      = st.counts.map (fun p => p.1) := by
  unfold processActivity
  by_cases h : act.type ∈ trackedTypes
  · simp only [h, if_true]
    cases hd : d act.id with
    | none => rfl
    | some dd => exact countEfforts_keys dd.segment_efforts (st.counts, 0)
  · simp [h]

theorem foldl_keys (d : Nat → Option Detail) (rn : String) (acts : List Activity) :
    ∀ st : FetchState,
      ((acts.foldl (processActivity d rn) st).counts).map (fun p => p.1)
        = st.counts.map (fun p => p.1) := by
  induction acts with
  | nil => intro st; rfl
  | cons a t ih =>
    intro st
    rw [List.foldl_cons, ih, processActivity_keys]

theorem fetch_keys (d : Nat → Option Detail) (l : Option (List Activity))
    (s : Nat) (rn : String) :
    ((fetch_activities d l s rn).counts).map (fun p => p.1) = SEGMENT_IDS := by
  cases l with
  | none =>
    show initCounts.map (fun p => p.1) = SEGMENT_IDS
    decide
  | some acts =>
    show ((acts.foldl (processActivity d rn)
      { counts := initCounts, maxEpoch := s, feed := [], detailCalls := 0 }).counts).map
        (fun p => p.1) = SEGMENT_IDS
    rw [foldl_keys]
    show initCounts.map (fun p => p.1) = SEGMENT_IDS
    decide

/-! Helper lemmas about count sums. -/

theorem sum_map_add (L : List Nat) (f g : Nat → Nat) :
    (L.map (fun s => f s + g s)).sum = (L.map f).sum + (L.map g).sum := by
  induction L with
  | nil => rfl
  | cons a t ih =>
    simp only [List.map_cons, List.sum_cons, ih]
    omega

theorem getCount_cons_self (k v : Nat) (t : List (Nat × Nat)) :
    getCount ((k, v) :: t) k = v := by
  simp [getCount, List.find?]

theorem getCount_cons_ne (k v s : Nat) (t : List (Nat × Nat)) (h : ¬ k = s) :
    getCount ((k, v) :: t) s = getCount t s := by
  have hb : (k == s) = false := beq_false_of_ne h
  simp [getCount, List.find?, hb]

theorem map_getCount_sum (a : List (Nat × Nat)) :
    (a.map (fun p => p.1)).Nodup →
      ((a.map (fun p => p.1)).map (getCount a)).sum = sumCounts a := by
  induction a with
  | nil => intro _; rfl
  | cons hd t ih =>
    intro hnd
    obtain ⟨k, v⟩ := hd
    rw [List.map_cons, List.nodup_cons] at hnd
    obtain ⟨hk, hnd'⟩ := hnd
    rw [List.map_cons, List.map_cons, List.sum_cons, getCount_cons_self]
    have h2 : (t.map (fun p => p.1)).map (getCount ((k, v) :: t))
        = (t.map (fun p => p.1)).map (getCount t) := by
      apply List.map_congr_left
      intro s hs
      exact getCount_cons_ne k v s t (fun e => hk (e ▸ hs))
    rw [h2, ih hnd']
    simp [sumCounts]

theorem sum_addCounts (a b : List (Nat × Nat))
    (ha : a.map (fun p => p.1) = SEGMENT_IDS)
    (hb : b.map (fun p => p.1) = SEGMENT_IDS) :
    sumCounts (addCounts a b) = sumCounts a + sumCounts b := by
  have hnd : SEGMENT_IDS.Nodup := by decide
  have h1 := map_getCount_sum a (by rw [ha]; exact hnd)
  have h2 := map_getCount_sum b (by rw [hb]; exact hnd)
  rw [ha] at h1
  rw [hb] at h2
  calc sumCounts (addCounts a b)
      = (SEGMENT_IDS.map (fun sid => getCount a sid + getCount b sid)).sum := by
        show ((SEGMENT_IDS.map
            (fun sid => (sid, getCount a sid + getCount b sid))).map (fun p => p.2)).sum
          = (SEGMENT_IDS.map (fun sid => getCount a sid + getCount b sid)).sum
        rw [List.map_map]
        rfl
    _ = (SEGMENT_IDS.map (getCount a)).sum + (SEGMENT_IDS.map (getCount b)).sum :=
        sum_map_add SEGMENT_IDS (getCount a) (getCount b)
    _ = sumCounts a + sumCounts b := by rw [h1, h2]

/-! Helper lemmas about the merge and the cycle. -/

theorem applyMerge_last_synced (r : Runner) (b : Bool) (nc : List (Nat × Nat))
    (ne : Nat) : (applyMerge r b nc ne).last_synced = ne := by
  unfold applyMerge
  split <;> rfl

theorem applyMerge_full_total (r : Runner) (nc : List (Nat × Nat)) (ne : Nat) :
    (applyMerge r true nc ne).total_count = sumCounts nc := rfl

theorem applyMerge_full_seg (r : Runner) (nc : List (Nat × Nat)) (ne : Nat) :
    (applyMerge r true nc ne).segCounts = nc := rfl

theorem applyMerge_incr_total (r : Runner) (nc : List (Nat × Nat)) (ne : Nat) :
    (applyMerge r false nc ne).total_count = r.total_count + sumCounts nc := rfl

theorem applyMerge_incr_seg (r : Runner) (nc : List (Nat × Nat)) (ne : Nat) :
    (applyMerge r false nc ne).segCounts = addCounts r.segCounts nc := rfl

theorem syncRunner_fst (api : Api) (force : Bool) (startTs : Nat)
    (keys : List (String × String)) (r : Runner) :
    (syncRunner api force startTs keys r).1 = syncRecord api force startTs r := by
  unfold syncRecord syncRunner
  split
  · rfl
  · cases api.tokenOf r.refresh_token <;> rfl

theorem syncRecord_token_fail (api : Api) (force : Bool) (startTs : Nat) (r : Runner)
    (h : api.tokenOf r.refresh_token = none) : syncRecord api force startTs r = r := by
  unfold syncRecord syncRunner
  split
  · rfl
  · rw [h]

theorem syncCycle_fst (api : Api) (force : Bool) (startTs : Nat)
    (roster : List Runner) :
    ∀ keys, (syncCycle api force startTs keys roster).1
      = roster.map (syncRecord api force startTs) := by
  induction roster with
  | nil => intro keys; rfl
  | cons r rest ih =>
    intro keys
    show (syncRunner api force startTs keys r).1
        :: (syncCycle api force startTs (syncRunner api force startTs keys r).2.2 rest).1
      = syncRecord api force startTs r :: rest.map (syncRecord api force startTs)
    rw [syncRunner_fst, ih]

theorem chooseMode_false_snd_ge (startTs lastTs : Nat) :
    lastTs ≤ (chooseMode false startTs lastTs).2 := by
  unfold chooseMode
  split
  · rename_i h
    cases h
  · split
    · exact Nat.le_refl _
    · rename_i h2
      omega

theorem syncRecord_last_synced_mono (api : Api) (startTs : Nat) (r : Runner) :
    r.last_synced ≤ (syncRecord api false startTs r).last_synced := by
  unfold syncRecord syncRunner
  split
  · exact Nat.le_refl _
  · cases htok : api.tokenOf r.refresh_token with
    | none => exact Nat.le_refl _
    | some tok =>
      calc r.last_synced ≤ (chooseMode false startTs r.last_synced).2 :=
            chooseMode_false_snd_ge startTs r.last_synced
        _ ≤ (fetch_activities (api.detailOf tok)
              (api.listResp tok (chooseMode false startTs r.last_synced).2)
              (chooseMode false startTs r.last_synced).2 (cleanName r.name)).maxEpoch :=
            fetch_maxEpoch_le _ _ _ _
        _ = _ := (applyMerge_last_synced _ _ _ _).symm

/-! Helper lemmas about feed dedup. -/

theorem dedupFeed_spec (items : List FeedItem) :
    ∀ keys : List (String × String),
      (dedupFeed keys items).2 = keys ++ ((dedupFeed keys items).1).map keyOf
    ∧ (∀ it ∈ (dedupFeed keys items).1, keyOf it ∉ keys)
    ∧ (((dedupFeed keys items).1).map keyOf).Nodup := by
  induction items with
  | nil =>
    intro keys
    exact ⟨by simp [dedupFeed], by simp [dedupFeed], by simp [dedupFeed]⟩
  | cons item rest ih =>
    intro keys
    by_cases hk : keyOf item ∈ keys
    · have hstep : dedupFeed keys (item :: rest) = dedupFeed keys rest := by
        show (if keyOf item ∈ keys then dedupFeed keys rest
              else (item :: (dedupFeed (keys ++ [keyOf item]) rest).1,
                    (dedupFeed (keys ++ [keyOf item]) rest).2)) = dedupFeed keys rest
        rw [if_pos hk]
      rw [hstep]
      exact ih keys
    · have hstep : dedupFeed keys (item :: rest)
          = (item :: (dedupFeed (keys ++ [keyOf item]) rest).1,
             (dedupFeed (keys ++ [keyOf item]) rest).2) := by
        show (if keyOf item ∈ keys then dedupFeed keys rest
              else (item :: (dedupFeed (keys ++ [keyOf item]) rest).1,
                    (dedupFeed (keys ++ [keyOf item]) rest).2))
          = (item :: (dedupFeed (keys ++ [keyOf item]) rest).1,
             (dedupFeed (keys ++ [keyOf item]) rest).2)
        rw [if_neg hk]
      obtain ⟨ih1, ih2, ih3⟩ := ih (keys ++ [keyOf item])
      rw [hstep]
      refine ⟨?_, ?_, ?_⟩
      · simp only [List.map_cons]
        rw [ih1, List.append_assoc]
        rfl
      · intro it hit
        rw [List.mem_cons] at hit
        rcases hit with rfl | hit
        · exact hk
        · intro hmem
          exact ih2 it hit (List.mem_append_left _ hmem)
      · rw [List.map_cons, List.nodup_cons]
        constructor
        · intro hmem
          rw [List.mem_map] at hmem
          obtain ⟨it, hit, heq⟩ := hmem
          exact ih2 it hit (heq ▸ List.mem_append_right keys (by simp))
        · exact ih3

theorem syncRunner_items_spec (api : Api) (force : Bool) (startTs : Nat)
    (keys : List (String × String)) (r : Runner) :
    (syncRunner api force startTs keys r).2.2
        = keys ++ ((syncRunner api force startTs keys r).2.1).map keyOf
    ∧ (∀ it ∈ (syncRunner api force startTs keys r).2.1, keyOf it ∉ keys)
    ∧ (((syncRunner api force startTs keys r).2.1).map keyOf).Nodup := by
  unfold syncRunner
  split
  · exact ⟨by simp, by simp, by simp⟩
  · cases api.tokenOf r.refresh_token with
    | none => exact ⟨by simp, by simp, by simp⟩
    | some tok => exact dedupFeed_spec _ keys

theorem syncCycle_items_spec (api : Api) (force : Bool) (startTs : Nat)
    (roster : List Runner) :
    ∀ keys, (∀ it ∈ (syncCycle api force startTs keys roster).2, keyOf it ∉ keys)
      ∧ (((syncCycle api force startTs keys roster).2).map keyOf).Nodup := by
  induction roster with
  | nil =>
    intro keys
    exact ⟨by simp [syncCycle], by simp [syncCycle]⟩
  | cons r rest ih =>
    intro keys
    obtain ⟨h1, h2, h3⟩ := syncRunner_items_spec api force startTs keys r
    obtain ⟨ihA, ihB⟩ := ih ((syncRunner api force startTs keys r).2.2)
    have hdec : (syncCycle api force startTs keys (r :: rest)).2
        = (syncRunner api force startTs keys r).2.1
          ++ (syncCycle api force startTs
                ((syncRunner api force startTs keys r).2.2) rest).2 := rfl
    constructor
    · intro it hit
      rw [hdec, List.mem_append] at hit
      rcases hit with hit | hit
      · exact h2 it hit
      · intro hmem
        have hh := ihA it hit
        rw [h1] at hh
        exact hh (List.mem_append_left _ hmem)
    · rw [hdec, List.map_append]
      apply List.Nodup.append h3 ihB
      intro k hk1 hk2
      rw [List.mem_map] at hk1 hk2
      obtain ⟨it1, hit1, he1⟩ := hk1
      obtain ⟨it2, hit2, he2⟩ := hk2
      have hh := ihA it2 hit2
      rw [h1] at hh
      apply hh
      apply List.mem_append_right
      rw [he2, ← he1]
      exact List.mem_map_of_mem keyOf hit1

/-! Concrete fixtures used by counterexamples and witnesses. -/

/-- A detail oracle on which every detail call fails. -/
def dNone : Nat → Option Detail := fun _ => none

/-- A swim activity newer than the watermarks used below. -/
def swimAct : Activity :=
  { id := 9, type := "Swim", startEpoch := 2000, start_date_local := "LSWIM" }

/-- An empty fetch state at watermark 0. -/
def stW : FetchState :=
  { counts := initCounts, maxEpoch := 0, feed := [], detailCalls := 0 }

/-- A run activity at epoch 2000. -/
def actR8 : Activity :=
  { id := 11, type := "Run", startEpoch := 2000, start_date_local := "L8" }

/-- Detail of actR8: two efforts on tracked segment 22655740 and one on an
untracked segment. -/
def det8 : Detail :=
  { name := "Beach run", description := "fun", distance := 8000,
    kudos_count := 4, segment_efforts := [22655740, 424242, 22655740] }

/-- A world where the token refresh succeeds, the list call returns actR8
and the detail call returns det8. -/
def api8 : Api :=
  { tokenOf := fun _ => some ("at")
    listResp := fun _ _ => some [actR8]
    detailOf := fun _ _ => some det8 }

/-- A runner with watermark 1000 and three efforts already on 22655740. -/
def r8 : Runner :=
  { athlete_id := 8, name := "Cara", refresh_token := "rt8",
    last_synced := 1000, total_count := 3,
    segCounts := [(22655740, 3), (40409507, 0), (8223506, 0), (3219147, 0),
                  (40410183, 0), (1705023, 0), (24820256, 0)] }

/-- A world where the token refresh succeeds but every list call fails. -/
def apiDown : Api :=
  { tokenOf := fun _ => some ("t")
    listResp := fun _ _ => none
    detailOf := fun _ _ => none }

/-- A world where every token refresh fails. -/
def apiNoTok : Api :=
  { tokenOf := fun _ => none
    listResp := fun _ _ => none
    detailOf := fun _ _ => none }

/-- A runner with watermark 1000 and clean counts. -/
def rW : Runner :=
  { athlete_id := 1, name := "Alice", refresh_token := "rt",
    last_synced := 1000, total_count := 0, segCounts := initCounts }

/-- A runner whose stored total 100 disagrees with its all-zero segment
counts. -/
def rBad : Runner :=
  { athlete_id := 2, name := "Bob", refresh_token := "rt",
    last_synced := 1000, total_count := 100, segCounts := initCounts }

/-- Two plain runners used as batch neighbours. -/
def rA : Runner :=
  { athlete_id := 3, name := "Ann", refresh_token := "MANUAL",
    last_synced := 0, total_count := 0, segCounts := initCounts }

def rB : Runner :=
  { athlete_id := 4, name := "Ben", refresh_token := "rt4",
    last_synced := 700, total_count := 0, segCounts := initCounts }

/-- A runner whose token refresh will fail under apiNoTok. -/
def rX : Runner :=
  { athlete_id := 5, name := "Xen", refresh_token := "rt5",
    last_synced := 900, total_count := 0, segCounts := initCounts }

/-! Claim theorems. -/

/-- Claim C3, counterexample: in fetch_activities a Swim activity with
start epoch 2000, newer than the input watermark 1000, makes no detail
call and changes no counts, but the returned watermark does NOT advance to
2000: it stays at the input 1000, contrary to the claim. -/
theorem C3_counterexample :
    (fetch_activities dNone (some [swimAct]) 1000 ("A")).maxEpoch = 1000
    ∧ swimAct.startEpoch = 2000
    ∧ (1000 : Nat) < 2000
    ∧ ¬ ((fetch_activities dNone (some [swimAct]) 1000 ("A")).maxEpoch
          = swimAct.startEpoch)
    ∧ (fetch_activities dNone (some [swimAct]) 1000 ("A")).detailCalls = 0
    ∧ (fetch_activities dNone (some [swimAct]) 1000 ("A")).counts = initCounts := by
  decide

/-- Claim C3, amended: in fetch_activities the watermark candidate is
advanced only for activities whose type is in the tracked set; an activity
of any other type leaves the watermark exactly as it was. -/
theorem C3_watermark_rule (d : Nat → Option Detail) (rn : String)
    (st : FetchState) (act : Activity) :
    (processActivity d rn st act).maxEpoch
      = if act.type ∈ trackedTypes then max st.maxEpoch act.startEpoch
        else st.maxEpoch := by
  by_cases h : act.type ∈ trackedTypes
  · rw [if_pos h]
    unfold processActivity
    simp only [h, if_true]
    have hm : (if act.startEpoch > st.maxEpoch then act.startEpoch else st.maxEpoch)
        = max st.maxEpoch act.startEpoch := by
      split <;> omega
    cases hd : d act.id <;> simp only [hd] <;> exact hm
  · rw [if_neg h]
    unfold processActivity
    rw [if_neg h]

/-- Claim C4, counterexample: the sync loop of daily_sync.py applies no
type filter: for a Swim activity carrying one effort on tracked segment
12345, a detail call is made and the segment count rises to 1, contrary to
the claim that activities outside the tracked type set are never fetched
and contribute nothing. -/
theorem C4_counterexample :
    (dailySyncRunner (fun _ => [12345]) [12345, 67890] 0 [swimAct]).2.2 = 1
    ∧ (dailySyncRunner (fun _ => [12345]) [12345, 67890] 0 [swimAct]).1 = 1
    ∧ ¬ ((dailySyncRunner (fun _ => [12345]) [12345, 67890] 0 [swimAct]).1 = 0) := by
  decide

theorem dailySync_calls_count (eff : Nat → List Nat) (segIds : List Nat)
    (acts : List Activity) :
    ∀ st : Nat × Nat × Nat,
      (acts.foldl (dailySyncActivity eff segIds) st).2.2 = st.2.2 + acts.length := by
  induction acts with
  | nil => intro st; simp
  | cons a t ih =>
    intro st
    show (t.foldl (dailySyncActivity eff segIds)
        (dailySyncActivity eff segIds st a)).2.2 = st.2.2 + (a :: t).length
    rw [ih]
    show st.2.2 + 1 + t.length = st.2.2 + (t.length + 1)
    omega

/-- Claim C4, amended: in fetch_activities of streamlit_app.py an activity
whose type is outside the tracked set is skipped whole (no detail call, no
count change, no state change at all), while the sync loop of
daily_sync.py makes a detail call for every listed activity regardless of
type. -/
theorem C4_type_filter_split :
    (∀ (d : Nat → Option Detail) (rn : String) (st : FetchState) (act : Activity),
        act.type ∉ trackedTypes → processActivity d rn st act = st)
    ∧ (∀ (eff : Nat → List Nat) (segIds : List Nat) (last : Nat)
        (acts : List Activity),
        (dailySyncRunner eff segIds last acts).2.2 = acts.length) := by
  constructor
  · intro d rn st act h
    unfold processActivity
    rw [if_neg h]
  · intro eff segIds last acts
    unfold dailySyncRunner
    rw [dailySync_calls_count]
    simp

/-- Witness for C4_type_filter_split at a concrete skipped Swim. -/
theorem C4_witness : processActivity dNone ("A") stW swimAct = stW :=
  C4_type_filter_split.1 dNone ("A") stW swimAct (by decide)

/-- Claim C5: the Start Sync handler selects FULL (fetching from the
challenge start epoch) exactly when the force flag is set or the stored
watermark is at or before the challenge start epoch, and INCREMENTAL
(fetching from the stored watermark) otherwise. -/
theorem C5_mode_policy (force : Bool) (startTs lastTs : Nat) (h : 0 < startTs) :
    chooseMode force startTs lastTs
      = if force = true ∨ lastTs ≤ startTs then (true, startTs)
        else (false, lastTs) := by
  unfold chooseMode
  cases force with
  | true => simp
  | false =>
    by_cases hc : lastTs ≠ 0 ∧ lastTs > startTs
    · simp only [Bool.false_eq_true, if_false, false_or]
      rw [if_pos hc, if_neg (by omega : ¬ lastTs ≤ startTs)]
    · simp only [Bool.false_eq_true, if_false, false_or]
      rw [if_neg hc, if_pos (by omega : lastTs ≤ startTs)]

/-- Witness for C5_mode_policy at a concrete input. -/
theorem C5_witness :
    chooseMode false 5 3
      = if (false = true) ∨ 3 ≤ 5 then (true, 5) else (false, 3) :=
  C5_mode_policy false 5 3 (by decide)

/-- Claim C6: when the activities-list call fails, fetch_activities
returns the all-zero per-segment map, the input watermark unchanged, an
empty feed list and makes no detail call. -/
theorem C6_list_failure (d : Nat → Option Detail) (s : Nat) (rn : String) :
    fetch_activities d none s rn
      = { counts := initCounts, maxEpoch := s, feed := [], detailCalls := 0 }
    ∧ initCounts = SEGMENT_IDS.map (fun sid => (sid, 0)) :=
  ⟨rfl, rfl⟩

/-- Claim C10: when the detail call for a type-matched activity fails, the
activity contributes no counts and no feed entry, but the watermark
candidate still includes its start epoch (the watermark update precedes
the detail call and is not reverted) and the detail call is counted. -/
theorem C10_detail_failure (d : Nat → Option Detail) (rn : String)
    (st : FetchState) (act : Activity) (h1 : act.type ∈ trackedTypes)
    (h2 : d act.id = none) :
    processActivity d rn st act
      = { st with maxEpoch := max st.maxEpoch act.startEpoch,
                  detailCalls := st.detailCalls + 1 } := by
  unfold processActivity
  simp only [h1, if_true, h2]
  have hm : (if act.startEpoch > st.maxEpoch then act.startEpoch else st.maxEpoch)
      = max st.maxEpoch act.startEpoch := by
    split <;> omega
  rw [hm]

/-- Witness for C10_detail_failure at a concrete run with a failing detail
call. -/
theorem C10_witness :
    processActivity dNone ("A") stW actR8
      = { stW with maxEpoch := max stW.maxEpoch actR8.startEpoch,
                   detailCalls := stW.detailCalls + 1 } :=
  C10_detail_failure dNone ("A") stW actR8 (by decide) rfl

/-- Claim C1, counterexample: a force-resync cycle whose activities-list
call fails overwrites the stored watermark 1000 with the challenge start
epoch 500: the watermark after the cycle is strictly below its value
before, contrary to the claimed monotonicity across all cycles. -/
theorem C1_counterexample :
    rW.last_synced = 1000
    ∧ ((syncCycle apiDown true 500 [] [rW]).1.map (fun r => r.last_synced)) = [500]
    ∧ ¬ (1000 ≤ (500 : Nat)) := by
  decide

/-- Claim C1, amended: in every sync cycle run without the force-resync
flag, every runner's stored watermark after the cycle is at least its
value before the cycle (the stored roster is the row-wise image of
syncRecord, and syncRecord never lowers last_synced when force is off). -/
theorem C1_watermark_monotone_without_force (api : Api) (startTs : Nat)
    (keys : List (String × String)) (roster : List Runner) :
    (syncCycle api false startTs keys roster).1
        = roster.map (syncRecord api false startTs)
    ∧ ∀ r : Runner, r.last_synced ≤ (syncRecord api false startTs r).last_synced :=
  ⟨syncCycle_fst api false startTs roster keys,
   fun r => syncRecord_last_synced_mono api startTs r⟩

/-- Claim C2, counterexample: an INCREMENTAL merge performed by a sync
cycle adds the batch total onto the stored total instead of recomputing it
from the per-segment counts: for a runner whose stored total 100 disagrees
with its all-zero segment counts, the post-merge total (102) differs from
the post-merge segment sum (2). -/
theorem C2_counterexample :
    ¬ ((syncRecord api8 false 500 rBad).total_count
        = sumCounts (syncRecord api8 false 500 rBad).segCounts) := by
  decide

/-- Claim C2, amended: a FULL merge and an admin edit both recompute the
total from the per-segment counts, establishing the invariant
unconditionally; an INCREMENTAL merge carries the stored total forward
additively, so it preserves the invariant only when the invariant already
held before the merge. -/
theorem C2_invariant_by_mode :
    (∀ (r : Runner) (nc : List (Nat × Nat)) (ne : Nat),
        (applyMerge r true nc ne).total_count
          = sumCounts (applyMerge r true nc ne).segCounts)
    ∧ (∀ (r : Runner) (vals : Nat → Nat),
        (adminEdit r vals).total_count = sumCounts (adminEdit r vals).segCounts)
    ∧ (∀ (r : Runner) (nc : List (Nat × Nat)) (ne : Nat),
        r.segCounts.map (fun p => p.1) = SEGMENT_IDS →
        nc.map (fun p => p.1) = SEGMENT_IDS →
        r.total_count = sumCounts r.segCounts →
        (applyMerge r false nc ne).total_count
          = sumCounts (applyMerge r false nc ne).segCounts) := by
  refine ⟨?_, ?_, ?_⟩
  · intro r nc ne
    rw [applyMerge_full_total, applyMerge_full_seg]
  · intro r vals
    show (SEGMENT_IDS.map vals).sum
      = sumCounts (SEGMENT_IDS.map (fun sid => (sid, vals sid)))
    unfold sumCounts
    rw [List.map_map]
    rfl
  · intro r nc ne h1 h2 hinv
    rw [applyMerge_incr_total, applyMerge_incr_seg, sum_addCounts r.segCounts nc h1 h2,
      hinv]

/-- Witness for C2_invariant_by_mode, INCREMENTAL conjunct, at a concrete
runner whose invariant holds before the merge. -/
theorem C2_witness :
    (applyMerge rW false initCounts 7).total_count
      = sumCounts (applyMerge rW false initCounts 7).segCounts :=
  C2_invariant_by_mode.2.2 rW initCounts 7 (by decide) (by decide) (by decide)

/-- Claim C7: when the token refresh fails for runner r, the cycle leaves
r's row exactly as stored and still processes every other runner of the
roster through the ordinary per-runner record computation. -/
theorem C7_credential_failure_frame (api : Api) (force : Bool) (startTs : Nat)
    (keys : List (String × String)) (pre post : List Runner) (r : Runner)
    (h : api.tokenOf r.refresh_token = none) :
    syncRecord api force startTs r = r
    ∧ (syncCycle api force startTs keys (pre ++ r :: post)).1
        = pre.map (syncRecord api force startTs)
          ++ r :: post.map (syncRecord api force startTs) := by
  have hr := syncRecord_token_fail api force startTs r h
  refine ⟨hr, ?_⟩
  rw [syncCycle_fst, List.map_append, List.map_cons, hr]

/-- Witness for C7_credential_failure_frame at a concrete three-runner
roster whose middle runner's refresh fails. -/
theorem C7_witness :
    syncRecord apiNoTok false 500 rX = rX
    ∧ (syncCycle apiNoTok false 500 [] ([rA] ++ rX :: [rB])).1
        = [rA].map (syncRecord apiNoTok false 500)
          ++ rX :: [rB].map (syncRecord apiNoTok false 500) :=
  C7_credential_failure_frame apiNoTok false 500 [] [rA] [rB] rX rfl

/-- Claim C8: concrete INCREMENTAL scenario: a runner with watermark 1000
gains one Run at epoch 2000 with two efforts on tracked segment 22655740
and one on an untracked segment; after the merge the count of 22655740
rises by exactly 2, the total by exactly 2, the watermark becomes 2000,
and exactly one feed entry is queued. -/
theorem C8_incremental_scenario :
    (syncRunner api8 false 500 [] r8).1.last_synced = 2000
    ∧ getCount (syncRunner api8 false 500 [] r8).1.segCounts 22655740
        = getCount r8.segCounts 22655740 + 2
    ∧ (syncRunner api8 false 500 [] r8).1.total_count = r8.total_count + 2
    ∧ (syncRunner api8 false 500 [] r8).2.1.length = 1 := by
  decide

/-- Claim C9, counterexample: the registration callback appends its
backfill feed items with no dedup: re-registering a runner whose feed
entry with key (Eve, LREG) is already stored results in two stored entries
with that key, not one. -/
theorem C9_counterexample :
    countKey (("Eve"), ("LREG"))
      (registrationFeedAppend (fun _ => some
        { name := "Reg run", description := "", distance := 3000,
          kudos_count := 0, segment_efforts := [24820256] })
        (some [{ id := 21, type := "Run", startEpoch := 1500,
                 start_date_local := "LREG" }])
        500 ("Eve")
        [{ runner := "Eve", timestamp := "LREG", title := "Reg run",
           description := "", distance := 3000, kudos := 0 }]) = 2
    ∧ ¬ (countKey (("Eve"), ("LREG"))
      (registrationFeedAppend (fun _ => some
        { name := "Reg run", description := "", distance := 3000,
          kudos_count := 0, segment_efforts := [24820256] })
        (some [{ id := 21, type := "Run", startEpoch := 1500,
                 start_date_local := "LREG" }])
        500 ("Eve")
        [{ runner := "Eve", timestamp := "LREG", title := "Reg run",
           description := "", distance := 3000, kudos := 0 }]) = 1) := by
  decide

/-- Claim C9, amended: the sync cycle's feed append is deduplicated: a key
already present in the stored feed is never appended again (so syncing the
same entry across two cycles stores it once), and the entries appended by
one cycle carry pairwise distinct keys (so a key queued earlier in the
same cycle is never queued twice).  The registration callback's append has
no such dedup (see the counterexample). -/
theorem C9_sync_dedup (api : Api) (force : Bool) (startTs : Nat)
    (stored : List FeedItem) (roster : List Runner) (k : String × String)
    (hk : k ∈ feedKeys stored) :
    countKey k (stored ++ (syncCycle api force startTs (feedKeys stored) roster).2)
      = countKey k stored
    ∧ (((syncCycle api force startTs (feedKeys stored) roster).2).map keyOf).Nodup := by
  obtain ⟨hA, hB⟩ := syncCycle_items_spec api force startTs roster (feedKeys stored)
  refine ⟨?_, hB⟩
  unfold countKey
  rw [List.filter_append]
  have hnil : (syncCycle api force startTs (feedKeys stored) roster).2.filter
      (fun it => keyOf it == k) = [] := by
    rw [List.filter_eq_nil_iff]
    intro it hit
    have hni := hA it hit
    simp only [beq_iff_eq]
    intro he
    exact hni (he ▸ hk)
  rw [hnil, List.append_nil]

/-- Witness for C9_sync_dedup at a concrete stored feed already holding
the key. -/
theorem C9_witness :
    countKey (("Dan"), ("TS1"))
      ([{ runner := "Dan", timestamp := "TS1", title := "t", description := "",
          distance := 1, kudos := 0 }]
        ++ (syncCycle apiDown false 500
              (feedKeys [{ runner := "Dan", timestamp := "TS1", title := "t",
                           description := "", distance := 1, kudos := 0 }])
              [rW]).2)
      = countKey (("Dan"), ("TS1"))
          [{ runner := "Dan", timestamp := "TS1", title := "t", description := "",
             distance := 1, kudos := 0 }]
    ∧ (((syncCycle apiDown false 500
          (feedKeys [{ runner := "Dan", timestamp := "TS1", title := "t",
                       description := "", distance := 1, kudos := 0 }])
          [rW]).2).map keyOf).Nodup :=
  C9_sync_dedup apiDown false 500
    [{ runner := "Dan", timestamp := "TS1", title := "t", description := "",
       distance := 1, kudos := 0 }]
    [rW] (("Dan"), ("TS1")) (by decide)
